import Mathlib

/-!
Dayu k30 Bluetooth status LED: indicator driver and connectivity listener

Shallow embedding of
* `config/boards/shields/k30/ble_status_led.c` (the indicator driver:
  `ble_status_led_init`, `blink_led`, `ble_status_led_set`,
  `ble_led_module_init`, and the simulated platform of the standard-C build);
* `config/boards/shields/k30/bt_led_behavior.c` (the connectivity listener
  `on_ble_connected_state_changed`).

The platform functions the C code calls (`device_get_binding`,
`device_is_ready`, `gpio_pin_configure`, `gpio_pin_set`, `k_msleep`,
`zmk_ble_active_profile_is_connected`, `led_on`, `led_blink`) are external.
Every call is appended to a trace, and the value a call returns is given by an
oracle that may depend on the whole history of calls made so far, so a theorem
quantified over the oracle holds for every behaviour of the platform.  C `int`
values are modelled by `Int`; the only arithmetic in the sources is the loop
counter `i++` of `blink_led`, which stays in `0 .. blink_count` and cannot
overflow.  Logging (`LOG_ERR`, `LOG_INF`, `LOG_DBG`, `printf`) has no effect on
results or on the platform calls and is left out.
-/

namespace K30

/-- A non-NULL `const device *`: the identity of a device object. -/
abbrev device := Nat

/-- One call made to the platform, with its arguments. -/
inductive Call where
  /-- Call of `device_get_binding(port_name)`. -/
  | getBinding (port_name : String)
  /-- Call of `device_is_ready(dev)`. -/
  | isReady (dev : device)
  /-- Call of `gpio_pin_configure(dev, pin, flags)`. -/
  | configure (dev : device) (pin : Nat) (flags : Int)
  /-- Call of `gpio_pin_set(dev, pin, value)`. -/
  | pinSet (dev : device) (pin : Nat) (value : Int)
  /-- Call of `k_msleep(ms)`. -/
  | msleep (ms : Int)
  /-- Call of `zmk_ble_active_profile_is_connected()`. -/
  | isConnected
  /-- Call of `led_on(dev)`. -/
  | ledOn (dev : device)
  /-- Call of `led_blink(dev, a, b)` with the two integer arguments the source passes. -/
  | ledBlink (dev : device) (a b : Int)
  deriving DecidableEq

/-- The hardware platform layer used by `ble_status_led.c`.  Each function
receives the history of calls made before it.  `device_get_binding` returns
`none` for a NULL pointer.  `ledFlags` is the flags argument the build passes to
`gpio_pin_configure`: `LED_FLAGS` (`GPIO_OUTPUT_ACTIVE`, a platform constant)
under `__ZEPHYR__`, `GPIO_OUTPUT` (`0x0001`) in the standard-C build. -/
structure Hardware where
  device_get_binding : List Call → String → Option device
  device_is_ready : List Call → device → Bool
  gpio_pin_configure : List Call → device → Nat → Int → Int
  gpio_pin_set : List Call → device → Nat → Int → Int
  ledFlags : Int

/-- Constant `#define GPIO_OUTPUT 0x0001` (standard-C build). -/
def GPIO_OUTPUT : Int := 0x0001

/-- Constant `#define LED_PORT "gpio1"`. -/
def LED_PORT : String := "gpio1"

/-- Constant `#define LED_PIN 10`. -/
def LED_PIN : Nat := 10

/-- The driver state: the global `static const device *led_dev` (`none` is
NULL) together with the trace of platform calls made so far. -/
structure State where
  led_dev : Option device
  trace : List Call
  deriving DecidableEq

/-- The state at program start: `led_dev = NULL`, no call made. -/
def State.initial : State := { led_dev := none, trace := [] }

/-- Function `static int ble_status_led_init(void)`.  The handle is assigned to
`led_dev` before any check is made. -/
def ble_status_led_init (hw : Hardware) (s : State) : Int × State :=
  -- led_dev = device_get_binding(LED_PORT);
  let t1 := s.trace ++ [Call.getBinding LED_PORT]
  match hw.device_get_binding s.trace LED_PORT with
  | none =>
    -- if (led_dev == NULL) return -1;
    (-1, { led_dev := none, trace := t1 })
  | some dev =>
    -- if (!device_is_ready(led_dev)) return -2;
    let t2 := t1 ++ [Call.isReady dev]
    if !hw.device_is_ready t1 dev then
      (-2, { led_dev := some dev, trace := t2 })
    else
      -- ret = gpio_pin_configure(led_dev, LED_PIN, flags);
      let ret := hw.gpio_pin_configure t2 dev LED_PIN hw.ledFlags
      let t3 := t2 ++ [Call.configure dev LED_PIN hw.ledFlags]
      if ret ≠ 0 then
        (-3, { led_dev := some dev, trace := t3 })
      else
        -- ret = gpio_pin_set(led_dev, LED_PIN, 1);
        let ret := hw.gpio_pin_set t3 dev LED_PIN 1
        let t4 := t3 ++ [Call.pinSet dev LED_PIN 1]
        if ret ≠ 0 then
          (-4, { led_dev := some dev, trace := t4 })
        else
          (0, { led_dev := some dev, trace := t4 })

/-- The loop of `blink_led`:
`for (int i = 0; i < blink_count; i++) { set 0; sleep; set 1; sleep; }`,
started at counter value `i` with trace `tr`.  The values `gpio_pin_set`
returns are discarded by the source. -/
def blink_loop (hw : Hardware) (dev : device) (blink_count delay_ms : Int)
    (i : Int) (tr : List Call) : List Call :=
  if i < blink_count then
    -- gpio_pin_set(led_dev, LED_PIN, 0);
    let _r0 := hw.gpio_pin_set tr dev LED_PIN 0
    let t1 := tr ++ [Call.pinSet dev LED_PIN 0]
    -- k_msleep(delay_ms);
    let t2 := t1 ++ [Call.msleep delay_ms]
    -- gpio_pin_set(led_dev, LED_PIN, 1);
    let _r1 := hw.gpio_pin_set t2 dev LED_PIN 1
    let t3 := t2 ++ [Call.pinSet dev LED_PIN 1]
    -- k_msleep(delay_ms);
    let t4 := t3 ++ [Call.msleep delay_ms]
    blink_loop hw dev blink_count delay_ms (i + 1) t4
  else
    tr
termination_by (blink_count - i).toNat
decreasing_by omega

/-- Function `static int blink_led(int blink_count, int delay_ms)`.  The guard
`led_dev == NULL || !device_is_ready(led_dev)` short-circuits: the readiness
query is made only when a handle is stored. -/
def blink_led (hw : Hardware) (blink_count delay_ms : Int) (s : State) : Int × State :=
  match s.led_dev with
  | none => (-1, s)
  | some dev =>
    let t1 := s.trace ++ [Call.isReady dev]
    if !hw.device_is_ready s.trace dev then
      (-1, { s with trace := t1 })
    else
      (0, { s with trace := blink_loop hw dev blink_count delay_ms 0 t1 })

/-- Function `int ble_status_led_set(int state)`: same guard as `blink_led`, then one
`gpio_pin_set` whose return value is the result. -/
def ble_status_led_set (hw : Hardware) (state : Int) (s : State) : Int × State :=
  match s.led_dev with
  | none => (-1, s)
  | some dev =>
    let t1 := s.trace ++ [Call.isReady dev]
    if !hw.device_is_ready s.trace dev then
      (-1, { s with trace := t1 })
    else
      -- int ret = gpio_pin_set(led_dev, LED_PIN, state); return ret;
      let ret := hw.gpio_pin_set t1 dev LED_PIN state
      (ret, { s with trace := t1 ++ [Call.pinSet dev LED_PIN state] })

/-- Function `int ble_led_module_init(void)`: runs `ble_status_led_init` and, when it
returned 0, the self-test `blink_led(3, 100)` whose result is discarded. -/
def ble_led_module_init (hw : Hardware) (s : State) : Int × State :=
  let r := ble_status_led_init hw s
  if r.1 = 0 then
    (r.1, (blink_led hw 3 100 r.2).2)
  else
    (r.1, r.2)

/-- The address of `static device dummy_dev` in the simulated
`device_get_binding`. -/
def dummy_dev : device := 1

/-- The simulated platform of the standard-C build: `device_get_binding`
returns `&dummy_dev`, `device_is_ready` is `dev != NULL`, `gpio_pin_configure`
and `gpio_pin_set` return 0, and the flags passed are `GPIO_OUTPUT`. -/
def simulated : Hardware where
  device_get_binding := fun _ _ => some dummy_dev
  device_is_ready := fun _ _ => true
  gpio_pin_configure := fun _ _ _ _ => 0
  gpio_pin_set := fun _ _ _ _ => 0
  ledFlags := GPIO_OUTPUT

/-- Function `int main(void)` of the `TEST_BUILD`: returns what `ble_led_module_init`
returns, starting from the initial state on the simulated platform. -/
def main : Int × State := ble_led_module_init simulated State.initial

/-- The event handed to the listener (`const zmk_event_t *eh`): one of the two
subscribed kinds, with an uninterpreted payload. -/
inductive zmk_event_t where
  /-- Event `zmk_ble_connected_state_changed`. -/
  | zmk_ble_connected_state_changed (payload : Nat)
  /-- Event `zmk_ble_active_profile_changed`. -/
  | zmk_ble_active_profile_changed (payload : Nat)
  deriving DecidableEq

/-- The collaborators of `bt_led_behavior.c`, none of which is defined in the
repository: the connectivity-status query, the readiness query, the LED driver
calls `led_on` and `led_blink` (each receives the history of calls made before
it), the device `DEVICE_DT_GET(DT_NODELABEL(bt_status_led))` and the errno
constant `ENODEV`. -/
structure ListenerEnv where
  zmk_ble_active_profile_is_connected : List Call → Bool
  device_is_ready : List Call → device → Bool
  led_on : List Call → device → Int
  led_blink : List Call → device → Int → Int → Int
  bt_led_dev : device
  ENODEV : Int

/-- Function `static int on_ble_connected_state_changed(const zmk_event_t *eh)`.
The connectivity status is read first, then the readiness of `bt_led_dev` is
checked; the values returned by `led_on` and `led_blink` are discarded and the
handler returns 0. -/
def on_ble_connected_state_changed (env : ListenerEnv) (_eh : zmk_event_t)
    (tr : List Call) : Int × List Call :=
  -- bool connected = zmk_ble_active_profile_is_connected();
  let connected := env.zmk_ble_active_profile_is_connected tr
  let t1 := tr ++ [Call.isConnected]
  -- if (!device_is_ready(bt_led_dev)) return -ENODEV;
  let t2 := t1 ++ [Call.isReady env.bt_led_dev]
  if !env.device_is_ready t1 env.bt_led_dev then
    (-env.ENODEV, t2)
  else if connected then
    -- led_on(bt_led_dev);
    let _r := env.led_on t2 env.bt_led_dev
    (0, t2 ++ [Call.ledOn env.bt_led_dev])
  else
    -- led_blink(bt_led_dev, 500, 500);
    let _r := env.led_blink t2 env.bt_led_dev 500 500
    (0, t2 ++ [Call.ledBlink env.bt_led_dev 500 500])

/-! ## Observations on traces -/

/-- The calls made between two traces, the second extending the first. -/
def callsSince (before after : List Call) : List Call := after.drop before.length

/-- A hardware write: a `gpio_pin_set` call. -/
def Call.isWrite : Call → Bool
  | .pinSet _ _ _ => true
  | _ => false

/-- A delay: a `k_msleep` call. -/
def Call.isDelay : Call → Bool
  | .msleep _ => true
  | _ => false

/-- A pin configuration: a `gpio_pin_configure` call. -/
def Call.isConfigure : Call → Bool
  | .configure _ _ _ => true
  | _ => false

/-- A steady-on indicator call: `led_on`. -/
def Call.isLedOn : Call → Bool
  | .ledOn _ => true
  | _ => false

/-- A blink indicator call: `led_blink`. -/
def Call.isLedBlink : Call → Bool
  | .ledBlink _ _ _ => true
  | _ => false

/-- The hardware writes in a list of calls. -/
def writes (cs : List Call) : List Call := cs.filter Call.isWrite

/-- The delays in a list of calls. -/
def delays (cs : List Call) : List Call := cs.filter Call.isDelay

/-- One blink iteration on `dev`: off, wait, on, wait. -/
def blinkIteration (dev : device) (delay_ms : Int) : List Call :=
  [Call.pinSet dev 10 0, Call.msleep delay_ms, Call.pinSet dev 10 1, Call.msleep delay_ms]

/-- The sequence off, wait, on, wait repeated `n` times. -/
def blinkPattern (dev : device) (delay_ms : Int) : Nat → List Call
  | 0 => []
  | n + 1 => blinkIteration dev delay_ms ++ blinkPattern dev delay_ms n

/-! ## Concrete platforms used to evaluate the code -/

/-- A hardware layer with constant behaviour: every acquisition yields
`binding`, every readiness query `ready`, every configure returns `cfg` and
every write returns `wr`. -/
def fixedHw (binding : Option device) (ready : Bool) (cfg wr : Int) : Hardware where
  device_get_binding := fun _ _ => binding
  device_is_ready := fun _ _ => ready
  gpio_pin_configure := fun _ _ _ _ => cfg
  gpio_pin_set := fun _ _ _ _ => wr
  ledFlags := GPIO_OUTPUT

/-- A driver state holding the handle `dummy_dev`, with no call made yet. -/
def heldState : State := { led_dev := some dummy_dev, trace := [] }

/-- A listener environment with constant behaviour. -/
def fixedEnv (connected ready : Bool) (onRet blinkRet : Int) : ListenerEnv where
  zmk_ble_active_profile_is_connected := fun _ => connected
  device_is_ready := fun _ _ => ready
  led_on := fun _ _ => onRet
  led_blink := fun _ _ _ _ => blinkRet
  bt_led_dev := 7
  ENODEV := 19

/-- A hardware layer whose acquisition yields the handle `dummy_dev` only while
no call has been made yet, and no handle afterwards; every other call
succeeds. -/
def lostAfterFirst : Hardware where
  device_get_binding := fun hist _ => if hist.isEmpty then some dummy_dev else none
  device_is_ready := fun _ _ => true
  gpio_pin_configure := fun _ _ _ _ => 0
  gpio_pin_set := fun _ _ _ _ => 0
  ledFlags := GPIO_OUTPUT

/-- A hardware layer whose device reports ready only at a readiness query made
after at most one earlier call (the query of a first `ble_status_led_init`),
and not-ready at every later query; every other call succeeds. -/
def readyOnce : Hardware where
  device_get_binding := fun _ _ => some dummy_dev
  device_is_ready := fun hist _ => decide (hist.length ≤ 1)
  gpio_pin_configure := fun _ _ _ _ => 0
  gpio_pin_set := fun _ _ _ _ => 0
  ledFlags := GPIO_OUTPUT

/-! ## Sequences of driver operations -/

/-- One call of a driver entry point, with its arguments. -/
inductive Op where
  /-- Call of `ble_status_led_init()`. -/
  | init
  /-- Call of `ble_status_led_set(state)`. -/
  | set (state : Int)
  /-- Call of `blink_led(blink_count, delay_ms)`. -/
  | blink (blink_count delay_ms : Int)
  /-- Call of `ble_led_module_init()`. -/
  | moduleInit
  deriving DecidableEq

/-- Run one driver operation: its result and the state it leaves. -/
def Op.run (hw : Hardware) : Op → State → Int × State
  | Op.init, s => ble_status_led_init hw s
  | Op.set state, s => ble_status_led_set hw state s
  | Op.blink blink_count delay_ms, s => blink_led hw blink_count delay_ms s
  | Op.moduleInit, s => ble_led_module_init hw s

/-- Run a sequence of driver operations in order, each on the state left by
the one before; the results are dropped. -/
def runOps (hw : Hardware) : List Op → State → State
  | [], s => s
  | op :: ops, s => runOps hw ops (op.run hw s).2

/-! ## Auxiliary lemmas -/

theorem blink_loop_unfold (hw : Hardware) (dev : device) (blink_count delay_ms i : Int)
    (tr : List Call) :
    blink_loop hw dev blink_count delay_ms i tr =
      if i < blink_count then
        blink_loop hw dev blink_count delay_ms (i + 1)
          (tr ++ [Call.pinSet dev LED_PIN 0] ++ [Call.msleep delay_ms]
            ++ [Call.pinSet dev LED_PIN 1] ++ [Call.msleep delay_ms])
      else tr := by
  rw [blink_loop]

/-- The loop started at counter `i` appends `blink_count - i` iterations (none
when `blink_count ≤ i`). -/
theorem blink_loop_pattern (hw : Hardware) (dev : device) (blink_count delay_ms : Int) :
    ∀ (n : Nat) (i : Int) (tr : List Call), (blink_count - i).toNat = n →
      blink_loop hw dev blink_count delay_ms i tr = tr ++ blinkPattern dev delay_ms n := by
  intro n
  induction n with
  | zero =>
    intro i tr h
    have hle : ¬ i < blink_count := by omega
    rw [blink_loop_unfold, if_neg hle]
    simp [blinkPattern]
  | succ n ih =>
    intro i tr h
    have hlt : i < blink_count := by omega
    have hn : (blink_count - (i + 1)).toNat = n := by omega
    rw [blink_loop_unfold, if_pos hlt, ih (i + 1) _ hn]
    simp [blinkPattern, blinkIteration, LED_PIN]

theorem writes_blinkPattern (dev : device) (delay_ms : Int) (n : Nat) :
    writes (blinkPattern dev delay_ms n) =
      (List.replicate n [Call.pinSet dev 10 0, Call.pinSet dev 10 1]).flatten := by
  induction n with
  | zero => rfl
  | succ n ih =>
    have h : writes (blinkPattern dev delay_ms (n + 1)) =
        [Call.pinSet dev 10 0, Call.pinSet dev 10 1] ++ writes (blinkPattern dev delay_ms n) := by
      simp [writes, blinkPattern, blinkIteration, Call.isWrite]
    rw [h, ih, List.replicate_succ, List.flatten_cons]

theorem delays_blinkPattern (dev : device) (delay_ms : Int) (n : Nat) :
    delays (blinkPattern dev delay_ms n) = List.replicate (2 * n) (Call.msleep delay_ms) := by
  induction n with
  | zero => rfl
  | succ n ih =>
    have h : delays (blinkPattern dev delay_ms (n + 1)) =
        [Call.msleep delay_ms, Call.msleep delay_ms] ++ delays (blinkPattern dev delay_ms n) := by
      simp [delays, blinkPattern, blinkIteration, Call.isDelay]
    rw [h, ih]
    have e : 2 * (n + 1) = (2 * n + 1) + 1 := by ring
    rw [e, List.replicate_succ, List.replicate_succ]
    rfl

theorem length_blinkPattern (dev : device) (delay_ms : Int) (n : Nat) :
    (blinkPattern dev delay_ms n).length = 4 * n := by
  induction n with
  | zero => rfl
  | succ n ih => simp [blinkPattern, blinkIteration, ih]; ring

theorem callsSince_append (tr cs : List Call) : callsSince tr (tr ++ cs) = cs := by
  simp [callsSince]

theorem callsSince_self (tr : List Call) : callsSince tr tr = [] := by
  simp [callsSince]

theorem blink_led_no_handle (hw : Hardware) (s : State) (blink_count delay_ms : Int)
    (hs : s.led_dev = none) : blink_led hw blink_count delay_ms s = (-1, s) := by
  simp [blink_led, hs]

theorem blink_led_not_ready (hw : Hardware) (s : State) (d : device)
    (blink_count delay_ms : Int) (hs : s.led_dev = some d)
    (hr : hw.device_is_ready s.trace d = false) :
    blink_led hw blink_count delay_ms s =
      (-1, { s with trace := s.trace ++ [Call.isReady d] }) := by
  simp [blink_led, hs, hr]

theorem blink_led_ready (hw : Hardware) (s : State) (d : device)
    (blink_count delay_ms : Int) (hs : s.led_dev = some d)
    (hr : hw.device_is_ready s.trace d = true) :
    blink_led hw blink_count delay_ms s =
      (0, { s with trace :=
        s.trace ++ Call.isReady d :: blinkPattern d delay_ms blink_count.toNat }) := by
  have h := blink_loop_pattern hw d blink_count delay_ms blink_count.toNat 0
    (s.trace ++ [Call.isReady d]) (by simp)
  simp [blink_led, hs, hr, h]

theorem set_no_handle (hw : Hardware) (s : State) (state : Int)
    (hs : s.led_dev = none) : ble_status_led_set hw state s = (-1, s) := by
  simp [ble_status_led_set, hs]

theorem set_not_ready (hw : Hardware) (s : State) (d : device) (state : Int)
    (hs : s.led_dev = some d) (hr : hw.device_is_ready s.trace d = false) :
    ble_status_led_set hw state s =
      (-1, { s with trace := s.trace ++ [Call.isReady d] }) := by
  simp [ble_status_led_set, hs, hr]

theorem set_ready (hw : Hardware) (s : State) (d : device) (state : Int)
    (hs : s.led_dev = some d) (hr : hw.device_is_ready s.trace d = true) :
    ble_status_led_set hw state s =
      (hw.gpio_pin_set (s.trace ++ [Call.isReady d]) d 10 state,
        { s with trace := s.trace ++ [Call.isReady d, Call.pinSet d 10 state] }) := by
  simp [ble_status_led_set, hs, hr, LED_PIN]

theorem init_no_binding (hw : Hardware) (s : State)
    (hb : hw.device_get_binding s.trace "gpio1" = none) :
    ble_status_led_init hw s =
      (-1, { led_dev := none, trace := s.trace ++ [Call.getBinding "gpio1"] }) := by
  simp [ble_status_led_init, LED_PORT, hb]

theorem writes_append (xs ys : List Call) : writes (xs ++ ys) = writes xs ++ writes ys := by
  simp [writes]

theorem delays_append (xs ys : List Call) : delays (xs ++ ys) = delays xs ++ delays ys := by
  simp [delays]

/-- The element at position `k` of `n` repetitions of the pair `a, b`. -/
theorem flatten_replicate_pair_getElem? (a b : Call) :
    ∀ (n k : Nat), k < 2 * n →
      (List.replicate n [a, b]).flatten[k]? = some (if k % 2 = 0 then a else b) := by
  intro n
  induction n with
  | zero => intro k hk; omega
  | succ n ih =>
    intro k hk
    rw [List.replicate_succ, List.flatten_cons]
    match k with
    | 0 => simp
    | 1 => simp
    | k + 2 =>
      have h2 : (k + 2) % 2 = k % 2 := by omega
      have hk2 : k < 2 * n := by omega
      rw [h2, ← ih k hk2]
      simp

/-- The call at position `k` of the blink pattern: write 0, delay, write 1,
delay, cyclically. -/
theorem blinkPattern_getElem? (dev : device) (delay_ms : Int) :
    ∀ (n k : Nat), k < 4 * n →
      (blinkPattern dev delay_ms n)[k]? =
        some (if k % 4 = 0 then Call.pinSet dev 10 0
              else if k % 4 = 2 then Call.pinSet dev 10 1
              else Call.msleep delay_ms) := by
  intro n
  induction n with
  | zero => intro k hk; omega
  | succ n ih =>
    intro k hk
    match k with
    | 0 => simp [blinkPattern, blinkIteration]
    | 1 => simp [blinkPattern, blinkIteration]
    | 2 => simp [blinkPattern, blinkIteration]
    | 3 => simp [blinkPattern, blinkIteration]
    | k + 4 =>
      have h4 : (k + 4) % 4 = k % 4 := by omega
      have hk4 : k < 4 * n := by omega
      rw [h4, ← ih k hk4]
      simp [blinkPattern, blinkIteration]

theorem length_flatten_replicate_pair (a b : Call) (n : Nat) :
    ((List.replicate n [a, b]).flatten).length = 2 * n := by
  induction n with
  | zero => rfl
  | succ n ih =>
    rw [List.replicate_succ, List.flatten_cons, List.length_append, ih]
    simp
    ring

theorem getLast?_flatten_replicate_pair (a b : Call) (n : Nat) (hn : 0 < n) :
    ((List.replicate n [a, b]).flatten).getLast? = some b := by
  have hlen := length_flatten_replicate_pair a b n
  rw [List.getLast?_eq_getElem?, hlen, flatten_replicate_pair_getElem? a b n (2 * n - 1) (by omega)]
  have : (2 * n - 1) % 2 ≠ 0 := by omega
  simp [this]

/-! ## The indicator driver: `ble_status_led_init` -/

/-- C1. For every hardware behaviour and every prior state,
`ble_status_led_init` returns the first applicable outcome in this order:
-1 when acquiring port "gpio1" yields no handle; -2 when the handle reports
not-ready; -3 when configuring pin 10 returns non-zero; -4 when the following
write of 1 on pin 10 returns non-zero; 0 otherwise.  The four error values are
pairwise distinct.  The calls made are: acquisition only in the first case;
acquisition and readiness query (no configure, no write) in the second; one
configure and no write in the third; one configure followed by exactly one
write of 1 in the last two. -/
theorem init_outcome_order (hw : Hardware) (s : State) :
    (hw.device_get_binding s.trace "gpio1" = none →
      (ble_status_led_init hw s).1 = -1 ∧
      (ble_status_led_init hw s).2.trace = s.trace ++ [Call.getBinding "gpio1"]) ∧
    (∀ d, hw.device_get_binding s.trace "gpio1" = some d →
      hw.device_is_ready (s.trace ++ [Call.getBinding "gpio1"]) d = false →
      (ble_status_led_init hw s).1 = -2 ∧
      (ble_status_led_init hw s).2.trace =
        s.trace ++ [Call.getBinding "gpio1", Call.isReady d]) ∧
    (∀ d, hw.device_get_binding s.trace "gpio1" = some d →
      hw.device_is_ready (s.trace ++ [Call.getBinding "gpio1"]) d = true →
      hw.gpio_pin_configure (s.trace ++ [Call.getBinding "gpio1", Call.isReady d])
        d 10 hw.ledFlags ≠ 0 →
      (ble_status_led_init hw s).1 = -3 ∧
      (ble_status_led_init hw s).2.trace =
        s.trace ++ [Call.getBinding "gpio1", Call.isReady d, Call.configure d 10 hw.ledFlags]) ∧
    (∀ d, hw.device_get_binding s.trace "gpio1" = some d →
      hw.device_is_ready (s.trace ++ [Call.getBinding "gpio1"]) d = true →
      hw.gpio_pin_configure (s.trace ++ [Call.getBinding "gpio1", Call.isReady d])
        d 10 hw.ledFlags = 0 →
      hw.gpio_pin_set (s.trace ++ [Call.getBinding "gpio1", Call.isReady d,
        Call.configure d 10 hw.ledFlags]) d 10 1 ≠ 0 →
      (ble_status_led_init hw s).1 = -4 ∧
      (ble_status_led_init hw s).2.trace =
        s.trace ++ [Call.getBinding "gpio1", Call.isReady d, Call.configure d 10 hw.ledFlags,
          Call.pinSet d 10 1]) ∧
    (∀ d, hw.device_get_binding s.trace "gpio1" = some d →
      hw.device_is_ready (s.trace ++ [Call.getBinding "gpio1"]) d = true →
      hw.gpio_pin_configure (s.trace ++ [Call.getBinding "gpio1", Call.isReady d])
        d 10 hw.ledFlags = 0 →
      hw.gpio_pin_set (s.trace ++ [Call.getBinding "gpio1", Call.isReady d,
        Call.configure d 10 hw.ledFlags]) d 10 1 = 0 →
      (ble_status_led_init hw s).1 = 0 ∧
      (ble_status_led_init hw s).2.trace =
        s.trace ++ [Call.getBinding "gpio1", Call.isReady d, Call.configure d 10 hw.ledFlags,
          Call.pinSet d 10 1]) ∧
    ([-1, -2, -3, -4] : List Int).Nodup := by
  refine ⟨?_, ?_, ?_, ?_, ?_, by decide⟩
  · intro hb
    simp [ble_status_led_init, LED_PORT, hb]
  · intro d hb hr
    simp [ble_status_led_init, LED_PORT, hb, hr]
  · intro d hb hr hc
    simp [ble_status_led_init, LED_PORT, LED_PIN, hb, hr, hc]
  · intro d hb hr hc hw1
    simp [ble_status_led_init, LED_PORT, LED_PIN, hb, hr, hc, hw1]
  · intro d hb hr hc hw1
    simp [ble_status_led_init, LED_PORT, LED_PIN, hb, hr, hc, hw1]

/-- Witness for C1: the five outcomes on five concrete hardware layers, from
the initial state. -/
theorem init_outcome_order_witness :
    ((fixedHw none true 0 0).device_get_binding [] "gpio1" = none ∧
      (ble_status_led_init (fixedHw none true 0 0) State.initial).1 = -1 ∧
      (ble_status_led_init (fixedHw none true 0 0) State.initial).2.trace =
        [Call.getBinding "gpio1"]) ∧
    ((ble_status_led_init (fixedHw (some 1) false 0 0) State.initial).1 = -2 ∧
      (ble_status_led_init (fixedHw (some 1) false 0 0) State.initial).2.trace =
        [Call.getBinding "gpio1", Call.isReady 1]) ∧
    ((ble_status_led_init (fixedHw (some 1) true (-5) 0) State.initial).1 = -3 ∧
      (ble_status_led_init (fixedHw (some 1) true (-5) 0) State.initial).2.trace =
        [Call.getBinding "gpio1", Call.isReady 1, Call.configure 1 10 1]) ∧
    ((ble_status_led_init (fixedHw (some 1) true 0 (-5)) State.initial).1 = -4 ∧
      (ble_status_led_init (fixedHw (some 1) true 0 (-5)) State.initial).2.trace =
        [Call.getBinding "gpio1", Call.isReady 1, Call.configure 1 10 1,
          Call.pinSet 1 10 1]) ∧
    ((ble_status_led_init (fixedHw (some 1) true 0 0) State.initial).1 = 0 ∧
      (ble_status_led_init (fixedHw (some 1) true 0 0) State.initial).2.trace =
        [Call.getBinding "gpio1", Call.isReady 1, Call.configure 1 10 1,
          Call.pinSet 1 10 1]) :=
  ⟨⟨rfl, (init_outcome_order (fixedHw none true 0 0) State.initial).1 rfl⟩,
   (init_outcome_order (fixedHw (some 1) false 0 0) State.initial).2.1 1 rfl rfl,
   (init_outcome_order (fixedHw (some 1) true (-5) 0) State.initial).2.2.1 1 rfl rfl
     (by decide),
   (init_outcome_order (fixedHw (some 1) true 0 (-5)) State.initial).2.2.2.1 1 rfl rfl rfl
     (by decide),
   (init_outcome_order (fixedHw (some 1) true 0 0) State.initial).2.2.2.2.1 1 rfl rfl rfl rfl⟩

/-- C2 (the code at the failing input). On a hardware layer whose acquisition
and readiness query succeed but whose pin configuration fails with -5,
`ble_status_led_init` from the initial state returns -3 (no successful init)
and leaves the handle stored; the following `ble_status_led_set(1)` passes the
guard, performs one hardware write and returns 0, and the following
`blink_led(2, 100)` returns 0 after four writes and four delays. -/
theorem failed_init_leaves_usable_handle :
    (ble_status_led_init (fixedHw (some 1) true (-5) 0) State.initial).1 = -3 ∧
    (ble_status_led_init (fixedHw (some 1) true (-5) 0) State.initial).2.led_dev = some 1 ∧
    (ble_status_led_set (fixedHw (some 1) true (-5) 0) 1
      (ble_status_led_init (fixedHw (some 1) true (-5) 0) State.initial).2).1 = 0 ∧
    callsSince (ble_status_led_init (fixedHw (some 1) true (-5) 0) State.initial).2.trace
      (ble_status_led_set (fixedHw (some 1) true (-5) 0) 1
        (ble_status_led_init (fixedHw (some 1) true (-5) 0) State.initial).2).2.trace
      = [Call.isReady 1, Call.pinSet 1 10 1] ∧
    (blink_led (fixedHw (some 1) true (-5) 0) 2 100
      (ble_status_led_init (fixedHw (some 1) true (-5) 0) State.initial).2).1 = 0 ∧
    callsSince (ble_status_led_init (fixedHw (some 1) true (-5) 0) State.initial).2.trace
      (blink_led (fixedHw (some 1) true (-5) 0) 2 100
        (ble_status_led_init (fixedHw (some 1) true (-5) 0) State.initial).2).2.trace
      = [Call.isReady 1,
         Call.pinSet 1 10 0, Call.msleep 100, Call.pinSet 1 10 1, Call.msleep 100,
         Call.pinSet 1 10 0, Call.msleep 100, Call.pinSet 1 10 1, Call.msleep 100] := by
  refine ⟨by decide, by decide, by decide, by decide, ?_, ?_⟩
  · rw [blink_led_ready _ _ 1 2 100 rfl rfl]
  · rw [blink_led_ready _ _ 1 2 100 rfl rfl]
    rfl

/-! ## The guard of `ble_status_led_set` and `blink_led` -/

/-- C3. For every hardware behaviour, driver state and argument,
`ble_status_led_set` returns -1 having made no hardware write and no delay
exactly when the stored handle is absent or reports not-ready, and `blink_led`
does so under exactly the same condition.  Moreover, when acquisition of port
"gpio1" yields no handle, `ble_status_led_init` returns -1 and a following
`ble_status_led_set(1)` returns -1 without touching the state. -/
theorem guard_fails_iff (hw : Hardware) (s : State) (state blink_count delay_ms : Int) :
    (((ble_status_led_set hw state s).1 = -1 ∧
        writes (callsSince s.trace (ble_status_led_set hw state s).2.trace) = [] ∧
        delays (callsSince s.trace (ble_status_led_set hw state s).2.trace) = []) ↔
      (s.led_dev = none ∨ ∃ d, s.led_dev = some d ∧ hw.device_is_ready s.trace d = false)) ∧
    (((blink_led hw blink_count delay_ms s).1 = -1 ∧
        writes (callsSince s.trace (blink_led hw blink_count delay_ms s).2.trace) = [] ∧
        delays (callsSince s.trace (blink_led hw blink_count delay_ms s).2.trace) = []) ↔
      (s.led_dev = none ∨ ∃ d, s.led_dev = some d ∧ hw.device_is_ready s.trace d = false)) ∧
    (hw.device_get_binding s.trace "gpio1" = none →
      (ble_status_led_init hw s).1 = -1 ∧
      (ble_status_led_set hw 1 (ble_status_led_init hw s).2).1 = -1 ∧
      (ble_status_led_set hw 1 (ble_status_led_init hw s).2).2 = (ble_status_led_init hw s).2) := by
  refine ⟨?_, ?_, ?_⟩
  · rcases h : s.led_dev with _ | d
    · rw [set_no_handle hw s state h]
      simp [callsSince_self, writes, delays]
    · cases hr : hw.device_is_ready s.trace d
      · rw [set_not_ready hw s d state h hr]
        simp [callsSince_append, writes, delays, Call.isWrite, Call.isDelay, hr]
      · rw [set_ready hw s d state h hr]
        simp [callsSince_append, writes, Call.isWrite, hr]
  · rcases h : s.led_dev with _ | d
    · rw [blink_led_no_handle hw s blink_count delay_ms h]
      simp [callsSince_self, writes, delays]
    · cases hr : hw.device_is_ready s.trace d
      · rw [blink_led_not_ready hw s d blink_count delay_ms h hr]
        simp [callsSince_append, writes, delays, Call.isWrite, Call.isDelay, hr]
      · rw [blink_led_ready hw s d blink_count delay_ms h hr]
        simp [hr]
  · intro hb
    rw [init_no_binding hw s hb]
    exact ⟨rfl, by rw [set_no_handle hw _ 1 rfl], by rw [set_no_handle hw _ 1 rfl]⟩

/-- Witness for C3: a hardware layer that yields no handle for "gpio1", from
the initial state. -/
theorem guard_fails_iff_witness :
    (fixedHw none true 0 0).device_get_binding State.initial.trace "gpio1" = none ∧
    (ble_status_led_init (fixedHw none true 0 0) State.initial).1 = -1 ∧
    (ble_status_led_set (fixedHw none true 0 0) 1
      (ble_status_led_init (fixedHw none true 0 0) State.initial).2).1 = -1 ∧
    (ble_status_led_set (fixedHw none true 0 0) 1
      (ble_status_led_init (fixedHw none true 0 0) State.initial).2).2 =
      (ble_status_led_init (fixedHw none true 0 0) State.initial).2 :=
  ⟨rfl, (guard_fails_iff (fixedHw none true 0 0) State.initial 1 0 0).2.2 rfl⟩

/-! ## `blink_led` -/

/-- C4. For every hardware behaviour and every state whose stored handle `d`
is ready, and every `N > 0`, `M > 0`, `blink_led(N, M)` returns 0 and, after
the readiness query of the guard, makes exactly `4N` calls: write 0, delay `M`,
write 1, delay `M`, repeated `N` times, all writes on pin 10.  There are exactly
`2N` writes, the k-th (counted from 1) being 0 for odd k and 1 for even k, and
exactly `2N` delays, each of `M` ms; the last write is 1 (on). -/
theorem blink_sequence (hw : Hardware) (s : State) (d : device) (N M : Int)
    (hs : s.led_dev = some d) (hr : hw.device_is_ready s.trace d = true)
    (hN : 0 < N) (_hM : 0 < M) :
    (blink_led hw N M s).1 = 0 ∧
    callsSince s.trace (blink_led hw N M s).2.trace =
      Call.isReady d :: blinkPattern d M N.toNat ∧
    ((callsSince s.trace (blink_led hw N M s).2.trace).length : Int) = 1 + 4 * N ∧
    (∀ k : Nat, (k : Int) < 4 * N →
      (callsSince s.trace (blink_led hw N M s).2.trace)[k + 1]? =
        some (if k % 4 = 0 then Call.pinSet d 10 0
              else if k % 4 = 2 then Call.pinSet d 10 1
              else Call.msleep M)) ∧
    ((writes (callsSince s.trace (blink_led hw N M s).2.trace)).length : Int) = 2 * N ∧
    (∀ k : Nat, 1 ≤ k → (k : Int) ≤ 2 * N →
      (writes (callsSince s.trace (blink_led hw N M s).2.trace))[k - 1]? =
        some (Call.pinSet d 10 (if k % 2 = 1 then 0 else 1))) ∧
    delays (callsSince s.trace (blink_led hw N M s).2.trace) =
      List.replicate (2 * N.toNat) (Call.msleep M) ∧
    ((delays (callsSince s.trace (blink_led hw N M s).2.trace)).length : Int) = 2 * N ∧
    (writes (callsSince s.trace (blink_led hw N M s).2.trace)).getLast? =
      some (Call.pinSet d 10 1) := by
  have hcs : callsSince s.trace (blink_led hw N M s).2.trace =
      Call.isReady d :: blinkPattern d M N.toNat := by
    rw [blink_led_ready hw s d N M hs hr]
    exact callsSince_append _ _
  have hwr : writes (callsSince s.trace (blink_led hw N M s).2.trace) =
      (List.replicate N.toNat [Call.pinSet d 10 0, Call.pinSet d 10 1]).flatten := by
    rw [hcs, ← writes_blinkPattern d M N.toNat]
    simp [writes, Call.isWrite]
  have hdl : delays (callsSince s.trace (blink_led hw N M s).2.trace) =
      List.replicate (2 * N.toNat) (Call.msleep M) := by
    rw [hcs, ← delays_blinkPattern d M N.toNat]
    simp [delays, Call.isDelay]
  have hNn : ((N.toNat : Nat) : Int) = N := Int.toNat_of_nonneg (le_of_lt hN)
  refine ⟨?_, hcs, ?_, ?_, ?_, ?_, hdl, ?_, ?_⟩
  · rw [blink_led_ready hw s d N M hs hr]
  · rw [hcs, List.length_cons, length_blinkPattern]
    push_cast
    omega
  · intro k hk
    rw [hcs, List.getElem?_cons_succ]
    exact blinkPattern_getElem? d M N.toNat k (by omega)
  · rw [hwr, length_flatten_replicate_pair]
    push_cast
    omega
  · intro k hk1 hk2
    rw [hwr, flatten_replicate_pair_getElem? _ _ N.toNat (k - 1) (by omega)]
    by_cases hodd : k % 2 = 1
    · have : (k - 1) % 2 = 0 := by omega
      simp [hodd, this]
    · have : ¬ (k - 1) % 2 = 0 := by omega
      simp [hodd, this]
  · rw [hdl, List.length_replicate]
    push_cast
    omega
  · rw [hwr]
    exact getLast?_flatten_replicate_pair _ _ N.toNat (by omega)

/-- Witness for C4: `blink_led(2, 100)` on the simulated platform with the
handle stored. -/
theorem blink_sequence_witness :
    heldState.led_dev = some dummy_dev ∧
    simulated.device_is_ready heldState.trace dummy_dev = true ∧
    (0 : Int) < 2 ∧ (0 : Int) < 100 ∧
    (blink_led simulated 2 100 heldState).1 = 0 ∧
    callsSince heldState.trace (blink_led simulated 2 100 heldState).2.trace =
      [Call.isReady 1,
       Call.pinSet 1 10 0, Call.msleep 100, Call.pinSet 1 10 1, Call.msleep 100,
       Call.pinSet 1 10 0, Call.msleep 100, Call.pinSet 1 10 1, Call.msleep 100] :=
  ⟨rfl, rfl, by decide, by decide,
   (blink_sequence simulated heldState dummy_dev 2 100 rfl rfl (by decide) (by decide)).1,
   (blink_sequence simulated heldState dummy_dev 2 100 rfl rfl (by decide) (by decide)).2.1⟩

/-- C5 (counterexample). With the handle stored and ready on the simulated
platform, `blink_led(1, 0)` returns 0 but makes two hardware writes: an
interval of 0 does not suppress the toggling. -/
theorem blink_zero_interval_still_writes :
    heldState.led_dev = some dummy_dev ∧
    simulated.device_is_ready heldState.trace dummy_dev = true ∧
    (blink_led simulated 1 0 heldState).1 = 0 ∧
    writes (callsSince heldState.trace (blink_led simulated 1 0 heldState).2.trace) =
      [Call.pinSet 1 10 0, Call.pinSet 1 10 1] ∧
    writes (callsSince heldState.trace (blink_led simulated 1 0 heldState).2.trace) ≠ [] := by
  have h : blink_led simulated 1 0 heldState =
      (0, { heldState with trace :=
        heldState.trace ++ Call.isReady dummy_dev :: blinkPattern dummy_dev 0 (1 : Int).toNat }) :=
    blink_led_ready simulated heldState dummy_dev 1 0 rfl rfl
  rw [h]
  refine ⟨rfl, rfl, rfl, by decide, by decide⟩

/-- C5 (amended). For every hardware behaviour and every state whose stored
handle is ready: `blink_led(0, M)` returns 0 with no hardware write and no
delay, for every `M`; `blink_led(N, 0)` returns 0 for every `N`, making the
same `2N` writes as for any other interval (with delays of 0 ms), so it makes
no hardware write exactly when `N ≤ 0`. -/
theorem blink_zero_count_or_interval (hw : Hardware) (s : State) (d : device) (N M : Int)
    (hs : s.led_dev = some d) (hr : hw.device_is_ready s.trace d = true) :
    ((blink_led hw 0 M s).1 = 0 ∧
      callsSince s.trace (blink_led hw 0 M s).2.trace = [Call.isReady d] ∧
      writes (callsSince s.trace (blink_led hw 0 M s).2.trace) = [] ∧
      delays (callsSince s.trace (blink_led hw 0 M s).2.trace) = []) ∧
    ((blink_led hw N 0 s).1 = 0 ∧
      callsSince s.trace (blink_led hw N 0 s).2.trace =
        Call.isReady d :: blinkPattern d 0 N.toNat ∧
      (writes (callsSince s.trace (blink_led hw N 0 s).2.trace)).length = 2 * N.toNat ∧
      (writes (callsSince s.trace (blink_led hw N 0 s).2.trace) = [] ↔ N ≤ 0)) := by
  have h0 : callsSince s.trace (blink_led hw 0 M s).2.trace = [Call.isReady d] := by
    rw [blink_led_ready hw s d 0 M hs hr]
    simp [callsSince_append, blinkPattern]
  have hN : callsSince s.trace (blink_led hw N 0 s).2.trace =
      Call.isReady d :: blinkPattern d 0 N.toNat := by
    rw [blink_led_ready hw s d N 0 hs hr]
    exact callsSince_append _ _
  have hwr : writes (callsSince s.trace (blink_led hw N 0 s).2.trace) =
      (List.replicate N.toNat [Call.pinSet d 10 0, Call.pinSet d 10 1]).flatten := by
    rw [hN, ← writes_blinkPattern d 0 N.toNat]
    simp [writes, Call.isWrite]
  have hlen : (writes (callsSince s.trace (blink_led hw N 0 s).2.trace)).length
      = 2 * N.toNat := by
    rw [hwr, length_flatten_replicate_pair]
  refine ⟨⟨?_, h0, ?_, ?_⟩, ?_, hN, hlen, ?_⟩
  · rw [blink_led_ready hw s d 0 M hs hr]
  · rw [h0]; rfl
  · rw [h0]; rfl
  · rw [blink_led_ready hw s d N 0 hs hr]
  · rw [← List.length_eq_zero, hlen]
    omega

/-- Witness for C5 (amended): the simulated platform with the handle stored,
`N = 3`, `M = 100`. -/
theorem blink_zero_count_or_interval_witness :
    heldState.led_dev = some dummy_dev ∧
    simulated.device_is_ready heldState.trace dummy_dev = true ∧
    (blink_led simulated 0 100 heldState).1 = 0 ∧
    writes (callsSince heldState.trace (blink_led simulated 0 100 heldState).2.trace) = [] ∧
    (blink_led simulated 3 0 heldState).1 = 0 ∧
    (writes (callsSince heldState.trace (blink_led simulated 3 0 heldState).2.trace)).length
      = 6 :=
  ⟨rfl, rfl,
   (blink_zero_count_or_interval simulated heldState dummy_dev 3 100 rfl rfl).1.1,
   (blink_zero_count_or_interval simulated heldState dummy_dev 3 100 rfl rfl).1.2.2.1,
   (blink_zero_count_or_interval simulated heldState dummy_dev 3 100 rfl rfl).2.1,
   (blink_zero_count_or_interval simulated heldState dummy_dev 3 100 rfl rfl).2.2.2.1⟩

/-- C6. For every hardware behaviour (so for every pattern of results of the
individual writes) and every state whose stored handle is ready, and every
count and interval, `blink_led` returns 0 after attempting all the writes of
the full sequence, `2 * count` of them (none for a count below 1).  On every
state, the result of `blink_led` is 0 or -1, and -1 only when the up-front
guard fails (handle absent or not ready). -/
theorem blink_best_effort (hw : Hardware) (s : State) (d : device) (count interval : Int)
    (hs : s.led_dev = some d) (hr : hw.device_is_ready s.trace d = true) :
    (blink_led hw count interval s).1 = 0 ∧
    callsSince s.trace (blink_led hw count interval s).2.trace =
      Call.isReady d :: blinkPattern d interval count.toNat ∧
    (writes (callsSince s.trace (blink_led hw count interval s).2.trace)).length
      = 2 * count.toNat ∧
    (∀ (s2 : State) (c2 i2 : Int),
      (blink_led hw c2 i2 s2).1 = 0 ∨
      ((blink_led hw c2 i2 s2).1 = -1 ∧
        (s2.led_dev = none ∨
          ∃ d2, s2.led_dev = some d2 ∧ hw.device_is_ready s2.trace d2 = false))) := by
  have hcs : callsSince s.trace (blink_led hw count interval s).2.trace =
      Call.isReady d :: blinkPattern d interval count.toNat := by
    rw [blink_led_ready hw s d count interval hs hr]
    exact callsSince_append _ _
  refine ⟨?_, hcs, ?_, ?_⟩
  · rw [blink_led_ready hw s d count interval hs hr]
  · have hwr : writes (Call.isReady d :: blinkPattern d interval count.toNat) =
        writes (blinkPattern d interval count.toNat) := by
      simp [writes, Call.isWrite]
    rw [hcs, hwr, writes_blinkPattern, length_flatten_replicate_pair]
  · intro s2 c2 i2
    rcases h : s2.led_dev with _ | d2
    · right
      rw [blink_led_no_handle hw s2 c2 i2 h]
      exact ⟨rfl, Or.inl rfl⟩
    · cases hr2 : hw.device_is_ready s2.trace d2
      · right
        rw [blink_led_not_ready hw s2 d2 c2 i2 h hr2]
        exact ⟨rfl, Or.inr ⟨d2, rfl, hr2⟩⟩
      · left
        rw [blink_led_ready hw s2 d2 c2 i2 h hr2]

/-- Witness for C6: every write fails with -5, and `blink_led(2, 50)` still
makes all four writes and returns 0. -/
theorem blink_best_effort_witness :
    heldState.led_dev = some dummy_dev ∧
    (fixedHw (some 1) true 0 (-5)).device_is_ready heldState.trace dummy_dev = true ∧
    (fixedHw (some 1) true 0 (-5)).gpio_pin_set [] dummy_dev 10 0 = -5 ∧
    (blink_led (fixedHw (some 1) true 0 (-5)) 2 50 heldState).1 = 0 ∧
    callsSince heldState.trace (blink_led (fixedHw (some 1) true 0 (-5)) 2 50 heldState).2.trace =
      [Call.isReady 1,
       Call.pinSet 1 10 0, Call.msleep 50, Call.pinSet 1 10 1, Call.msleep 50,
       Call.pinSet 1 10 0, Call.msleep 50, Call.pinSet 1 10 1, Call.msleep 50] ∧
    (writes (callsSince heldState.trace
      (blink_led (fixedHw (some 1) true 0 (-5)) 2 50 heldState).2.trace)).length = 4 :=
  ⟨rfl, rfl, rfl,
   (blink_best_effort (fixedHw (some 1) true 0 (-5)) heldState dummy_dev 2 50 rfl rfl).1,
   (blink_best_effort (fixedHw (some 1) true 0 (-5)) heldState dummy_dev 2 50 rfl rfl).2.1,
   (blink_best_effort (fixedHw (some 1) true 0 (-5)) heldState dummy_dev 2 50 rfl rfl).2.2.1⟩

/-! ## `ble_status_led_set` -/

/-- C7. For every hardware behaviour, every state whose stored handle `d` is
ready and every requested value, `ble_status_led_set` makes, after the
readiness query of the guard, exactly one hardware write, on pin 10 with the
requested value, and no delay; it returns the code of that write, so it
returns 0 exactly when the write succeeded and a failed write reaches the
caller as a non-zero result, with no second attempt. -/
theorem set_single_write (hw : Hardware) (s : State) (d : device) (state : Int)
    (hs : s.led_dev = some d) (hr : hw.device_is_ready s.trace d = true) :
    callsSince s.trace (ble_status_led_set hw state s).2.trace =
      [Call.isReady d, Call.pinSet d 10 state] ∧
    writes (callsSince s.trace (ble_status_led_set hw state s).2.trace) =
      [Call.pinSet d 10 state] ∧
    delays (callsSince s.trace (ble_status_led_set hw state s).2.trace) = [] ∧
    (ble_status_led_set hw state s).1 =
      hw.gpio_pin_set (s.trace ++ [Call.isReady d]) d 10 state ∧
    ((ble_status_led_set hw state s).1 = 0 ↔
      hw.gpio_pin_set (s.trace ++ [Call.isReady d]) d 10 state = 0) ∧
    (hw.gpio_pin_set (s.trace ++ [Call.isReady d]) d 10 state ≠ 0 →
      (ble_status_led_set hw state s).1 ≠ 0) := by
  rw [set_ready hw s d state hs hr]
  refine ⟨callsSince_append _ _, ?_, ?_, rfl, Iff.rfl, fun h => h⟩
  · show writes (callsSince s.trace (s.trace ++ _)) = _
    rw [callsSince_append]
    rfl
  · show delays (callsSince s.trace (s.trace ++ _)) = _
    rw [callsSince_append]
    rfl

/-- Witness for C7: the write fails with -5; `ble_status_led_set(1)` makes
that single write and returns -5. -/
theorem set_single_write_witness :
    heldState.led_dev = some dummy_dev ∧
    (fixedHw (some 1) true 0 (-5)).device_is_ready heldState.trace dummy_dev = true ∧
    callsSince heldState.trace
      (ble_status_led_set (fixedHw (some 1) true 0 (-5)) 1 heldState).2.trace =
      [Call.isReady 1, Call.pinSet 1 10 1] ∧
    (ble_status_led_set (fixedHw (some 1) true 0 (-5)) 1 heldState).1 = -5 :=
  ⟨rfl, rfl,
   (set_single_write (fixedHw (some 1) true 0 (-5)) heldState dummy_dev 1 rfl rfl).1,
   (set_single_write (fixedHw (some 1) true 0 (-5)) heldState dummy_dev 1 rfl rfl).2.2.2.1⟩

/-! ## The connectivity listener -/

/-- C8. For every event (of either kind), every listener environment and
every history, when `bt_led_dev` reports ready and the connectivity status is
true, `on_ble_connected_state_changed` returns 0 and, after the status query
and the readiness query, makes exactly one call, `led_on(bt_led_dev)`: one
steady-on call, no blink call, no delay and no pin write. -/
theorem listener_connected (env : ListenerEnv) (eh : zmk_event_t) (tr : List Call)
    (hr : env.device_is_ready (tr ++ [Call.isConnected]) env.bt_led_dev = true)
    (hc : env.zmk_ble_active_profile_is_connected tr = true) :
    (on_ble_connected_state_changed env eh tr).1 = 0 ∧
    callsSince tr (on_ble_connected_state_changed env eh tr).2 =
      [Call.isConnected, Call.isReady env.bt_led_dev, Call.ledOn env.bt_led_dev] ∧
    (callsSince tr (on_ble_connected_state_changed env eh tr).2).filter Call.isLedOn =
      [Call.ledOn env.bt_led_dev] ∧
    (callsSince tr (on_ble_connected_state_changed env eh tr).2).filter Call.isLedBlink = [] ∧
    delays (callsSince tr (on_ble_connected_state_changed env eh tr).2) = [] ∧
    writes (callsSince tr (on_ble_connected_state_changed env eh tr).2) = [] := by
  have h : on_ble_connected_state_changed env eh tr =
      (0, tr ++ [Call.isConnected, Call.isReady env.bt_led_dev, Call.ledOn env.bt_led_dev]) := by
    simp [on_ble_connected_state_changed, hr, hc]
  rw [h]
  refine ⟨rfl, callsSince_append _ _, ?_, ?_, ?_, ?_⟩ <;>
    (show _ = _; simp only [callsSince_append]; rfl)

/-- Witness for C8: a ready, connected environment, a connected-state-changed
event, empty history. -/
theorem listener_connected_witness :
    (fixedEnv true true 0 0).device_is_ready ([] ++ [Call.isConnected])
      (fixedEnv true true 0 0).bt_led_dev = true ∧
    (fixedEnv true true 0 0).zmk_ble_active_profile_is_connected [] = true ∧
    (on_ble_connected_state_changed (fixedEnv true true 0 0)
      (zmk_event_t.zmk_ble_connected_state_changed 0) []).1 = 0 ∧
    callsSince [] (on_ble_connected_state_changed (fixedEnv true true 0 0)
      (zmk_event_t.zmk_ble_connected_state_changed 0) []).2 =
      [Call.isConnected, Call.isReady 7, Call.ledOn 7] :=
  ⟨rfl, rfl,
   (listener_connected (fixedEnv true true 0 0)
     (zmk_event_t.zmk_ble_connected_state_changed 0) [] rfl rfl).1,
   (listener_connected (fixedEnv true true 0 0)
     (zmk_event_t.zmk_ble_connected_state_changed 0) [] rfl rfl).2.1⟩

/-- C9. For every event (of either kind), every listener environment and
every history, when `bt_led_dev` reports ready and the connectivity status is
false, `on_ble_connected_state_changed` makes, after the status query and the
readiness query, exactly one call, `led_blink(bt_led_dev, 500, 500)`, with the
same constant arguments whatever the event, and no steady-on call and no pin
write. -/
theorem listener_disconnected (env : ListenerEnv) (eh : zmk_event_t) (tr : List Call)
    (hr : env.device_is_ready (tr ++ [Call.isConnected]) env.bt_led_dev = true)
    (hc : env.zmk_ble_active_profile_is_connected tr = false) :
    callsSince tr (on_ble_connected_state_changed env eh tr).2 =
      [Call.isConnected, Call.isReady env.bt_led_dev, Call.ledBlink env.bt_led_dev 500 500] ∧
    (callsSince tr (on_ble_connected_state_changed env eh tr).2).filter Call.isLedBlink =
      [Call.ledBlink env.bt_led_dev 500 500] ∧
    (callsSince tr (on_ble_connected_state_changed env eh tr).2).filter Call.isLedOn = [] ∧
    writes (callsSince tr (on_ble_connected_state_changed env eh tr).2) = [] ∧
    (on_ble_connected_state_changed env eh tr).1 = 0 := by
  have h : on_ble_connected_state_changed env eh tr =
      (0, tr ++ [Call.isConnected, Call.isReady env.bt_led_dev,
        Call.ledBlink env.bt_led_dev 500 500]) := by
    simp [on_ble_connected_state_changed, hr, hc]
  rw [h]
  refine ⟨callsSince_append _ _, ?_, ?_, ?_, rfl⟩ <;>
    (show _ = _; simp only [callsSince_append]; rfl)

/-- Witness for C9: a ready, disconnected environment, an
active-profile-changed event, empty history. -/
theorem listener_disconnected_witness :
    (fixedEnv false true 0 0).device_is_ready ([] ++ [Call.isConnected])
      (fixedEnv false true 0 0).bt_led_dev = true ∧
    (fixedEnv false true 0 0).zmk_ble_active_profile_is_connected [] = false ∧
    callsSince [] (on_ble_connected_state_changed (fixedEnv false true 0 0)
      (zmk_event_t.zmk_ble_active_profile_changed 2) []).2 =
      [Call.isConnected, Call.isReady 7, Call.ledBlink 7 500 500] :=
  ⟨rfl, rfl,
   (listener_disconnected (fixedEnv false true 0 0)
     (zmk_event_t.zmk_ble_active_profile_changed 2) [] rfl rfl).1⟩

/-- C10. For every event, every listener environment whose `ENODEV` is
non-zero, every history and every connectivity status, when `bt_led_dev`
reports not-ready `on_ble_connected_state_changed` returns `-ENODEV`, which is
non-zero, having made only the status query and the readiness query: no
`led_on`, no `led_blink`, no pin write and no delay. -/
theorem listener_not_ready (env : ListenerEnv) (eh : zmk_event_t) (tr : List Call)
    (hr : env.device_is_ready (tr ++ [Call.isConnected]) env.bt_led_dev = false)
    (hE : env.ENODEV ≠ 0) :
    (on_ble_connected_state_changed env eh tr).1 = -env.ENODEV ∧
    (on_ble_connected_state_changed env eh tr).1 ≠ 0 ∧
    callsSince tr (on_ble_connected_state_changed env eh tr).2 =
      [Call.isConnected, Call.isReady env.bt_led_dev] ∧
    (callsSince tr (on_ble_connected_state_changed env eh tr).2).filter Call.isLedOn = [] ∧
    (callsSince tr (on_ble_connected_state_changed env eh tr).2).filter Call.isLedBlink = [] ∧
    writes (callsSince tr (on_ble_connected_state_changed env eh tr).2) = [] ∧
    delays (callsSince tr (on_ble_connected_state_changed env eh tr).2) = [] := by
  have h : on_ble_connected_state_changed env eh tr =
      (-env.ENODEV, tr ++ [Call.isConnected, Call.isReady env.bt_led_dev]) := by
    simp [on_ble_connected_state_changed, hr]
  rw [h]
  refine ⟨rfl, ?_, callsSince_append _ _, ?_, ?_, ?_, ?_⟩
  · show -env.ENODEV ≠ 0
    omega
  all_goals (show _ = _; simp only [callsSince_append]; rfl)

/-- Witness for C10: a not-ready environment with `ENODEV = 19`, with the
connectivity status true and with it false. -/
theorem listener_not_ready_witness :
    (fixedEnv true false 0 0).device_is_ready ([] ++ [Call.isConnected])
      (fixedEnv true false 0 0).bt_led_dev = false ∧
    (fixedEnv true false 0 0).ENODEV ≠ 0 ∧
    (on_ble_connected_state_changed (fixedEnv true false 0 0)
      (zmk_event_t.zmk_ble_connected_state_changed 0) []).1 = -19 ∧
    callsSince [] (on_ble_connected_state_changed (fixedEnv true false 0 0)
      (zmk_event_t.zmk_ble_connected_state_changed 0) []).2 =
      [Call.isConnected, Call.isReady 7] ∧
    (on_ble_connected_state_changed (fixedEnv false false 0 0)
      (zmk_event_t.zmk_ble_active_profile_changed 1) []).1 = -19 :=
  ⟨rfl, by decide,
   (listener_not_ready (fixedEnv true false 0 0)
     (zmk_event_t.zmk_ble_connected_state_changed 0) [] rfl (by decide)).1,
   (listener_not_ready (fixedEnv true false 0 0)
     (zmk_event_t.zmk_ble_connected_state_changed 0) [] rfl (by decide)).2.2.1,
   (listener_not_ready (fixedEnv false false 0 0)
     (zmk_event_t.zmk_ble_active_profile_changed 1) [] rfl (by decide)).1⟩

/-- C11 (counterexample). In a ready, connected environment whose `led_on`
returns the error -5, `on_ble_connected_state_changed` issues that `led_on`
call and returns 0, not -5; likewise, in a ready, disconnected environment
whose `led_blink` returns -5, it returns 0. -/
theorem listener_swallows_indicator_error :
    (fixedEnv true true (-5) 0).device_is_ready [Call.isConnected] 7 = true ∧
    (fixedEnv true true (-5) 0).led_on [Call.isConnected, Call.isReady 7] 7 = -5 ∧
    (on_ble_connected_state_changed (fixedEnv true true (-5) 0)
      (zmk_event_t.zmk_ble_connected_state_changed 0) []).2 =
      [Call.isConnected, Call.isReady 7, Call.ledOn 7] ∧
    (on_ble_connected_state_changed (fixedEnv true true (-5) 0)
      (zmk_event_t.zmk_ble_connected_state_changed 0) []).1 = 0 ∧
    (on_ble_connected_state_changed (fixedEnv true true (-5) 0)
      (zmk_event_t.zmk_ble_connected_state_changed 0) []).1 ≠ -5 ∧
    (fixedEnv false true 0 (-5)).led_blink [Call.isConnected, Call.isReady 7] 7 500 500 = -5 ∧
    (on_ble_connected_state_changed (fixedEnv false true 0 (-5))
      (zmk_event_t.zmk_ble_active_profile_changed 0) []).2 =
      [Call.isConnected, Call.isReady 7, Call.ledBlink 7 500 500] ∧
    (on_ble_connected_state_changed (fixedEnv false true 0 (-5))
      (zmk_event_t.zmk_ble_active_profile_changed 0) []).1 = 0 := by
  refine ⟨rfl, rfl, rfl, rfl, by decide, rfl, rfl, rfl⟩

/-- C11 (amended). For every event, every listener environment and every
history, when `bt_led_dev` reports ready `on_ble_connected_state_changed`
returns 0 whatever `led_on` or `led_blink` returns: the result of the indicator
call it issues (`led_on` when connected, `led_blink` when not) is discarded, so
the handler's result equals the indicator's result only when that result
is 0. -/
theorem listener_discards_indicator_result (env : ListenerEnv) (eh : zmk_event_t)
    (tr : List Call)
    (hr : env.device_is_ready (tr ++ [Call.isConnected]) env.bt_led_dev = true) :
    (on_ble_connected_state_changed env eh tr).1 = 0 ∧
    (env.zmk_ble_active_profile_is_connected tr = true →
      callsSince tr (on_ble_connected_state_changed env eh tr).2 =
        [Call.isConnected, Call.isReady env.bt_led_dev, Call.ledOn env.bt_led_dev] ∧
      ((on_ble_connected_state_changed env eh tr).1 =
          env.led_on (tr ++ [Call.isConnected, Call.isReady env.bt_led_dev]) env.bt_led_dev ↔
        env.led_on (tr ++ [Call.isConnected, Call.isReady env.bt_led_dev]) env.bt_led_dev = 0)) ∧
    (env.zmk_ble_active_profile_is_connected tr = false →
      callsSince tr (on_ble_connected_state_changed env eh tr).2 =
        [Call.isConnected, Call.isReady env.bt_led_dev,
          Call.ledBlink env.bt_led_dev 500 500] ∧
      ((on_ble_connected_state_changed env eh tr).1 =
          env.led_blink (tr ++ [Call.isConnected, Call.isReady env.bt_led_dev])
            env.bt_led_dev 500 500 ↔
        env.led_blink (tr ++ [Call.isConnected, Call.isReady env.bt_led_dev])
          env.bt_led_dev 500 500 = 0)) := by
  refine ⟨?_, ?_, ?_⟩
  · cases hc : env.zmk_ble_active_profile_is_connected tr <;>
      simp [on_ble_connected_state_changed, hr, hc]
  · intro hc
    have h : on_ble_connected_state_changed env eh tr =
        (0, tr ++ [Call.isConnected, Call.isReady env.bt_led_dev,
          Call.ledOn env.bt_led_dev]) := by
      simp [on_ble_connected_state_changed, hr, hc]
    rw [h]
    exact ⟨callsSince_append _ _, eq_comm⟩
  · intro hc
    have h : on_ble_connected_state_changed env eh tr =
        (0, tr ++ [Call.isConnected, Call.isReady env.bt_led_dev,
          Call.ledBlink env.bt_led_dev 500 500]) := by
      simp [on_ble_connected_state_changed, hr, hc]
    rw [h]
    exact ⟨callsSince_append _ _, eq_comm⟩

/-- Witness for C11 (amended): a ready environment whose `led_on` and
`led_blink` both fail with -5; the handler returns 0. -/
theorem listener_discards_indicator_result_witness :
    (fixedEnv true true (-5) (-5)).device_is_ready ([] ++ [Call.isConnected])
      (fixedEnv true true (-5) (-5)).bt_led_dev = true ∧
    (fixedEnv true true (-5) (-5)).led_on [Call.isConnected, Call.isReady 7] 7 = -5 ∧
    (on_ble_connected_state_changed (fixedEnv true true (-5) (-5))
      (zmk_event_t.zmk_ble_connected_state_changed 0) []).1 = 0 ∧
    callsSince [] (on_ble_connected_state_changed (fixedEnv true true (-5) (-5))
      (zmk_event_t.zmk_ble_connected_state_changed 0) []).2 =
      [Call.isConnected, Call.isReady 7, Call.ledOn 7] :=
  ⟨rfl, rfl,
   (listener_discards_indicator_result (fixedEnv true true (-5) (-5))
     (zmk_event_t.zmk_ble_connected_state_changed 0) [] rfl).1,
   ((listener_discards_indicator_result (fixedEnv true true (-5) (-5))
     (zmk_event_t.zmk_ble_connected_state_changed 0) [] rfl).2.1 rfl).1⟩

/-! ## The stored handle across operations -/

theorem set_keeps_led_dev (hw : Hardware) (state : Int) (s : State) :
    (ble_status_led_set hw state s).2.led_dev = s.led_dev := by
  unfold ble_status_led_set
  split
  · rfl
  · split <;> rfl

theorem blink_keeps_led_dev (hw : Hardware) (blink_count delay_ms : Int) (s : State) :
    (blink_led hw blink_count delay_ms s).2.led_dev = s.led_dev := by
  unfold blink_led
  split
  · rfl
  · split <;> rfl

theorem init_led_dev (hw : Hardware) (s : State) :
    (ble_status_led_init hw s).2.led_dev = hw.device_get_binding s.trace "gpio1" := by
  unfold ble_status_led_init
  simp only [LED_PORT]
  split
  · next h => rw [h]
  · next dev h =>
    rw [h]
    split
    · rfl
    · split
      · rfl
      · split <;> rfl

theorem module_init_led_dev (hw : Hardware) (s : State) :
    (ble_led_module_init hw s).2.led_dev = hw.device_get_binding s.trace "gpio1" := by
  unfold ble_led_module_init
  simp only
  split
  · rw [blink_keeps_led_dev, init_led_dev]
  · exact init_led_dev hw s

theorem module_init_result (hw : Hardware) (s : State) :
    (ble_led_module_init hw s).1 = (ble_status_led_init hw s).1 := by
  unfold ble_led_module_init
  simp only
  split <;> rfl

/-- A successful `ble_status_led_init` acquired a handle and made exactly the
four calls acquire, readiness query, configure, write 1. -/
theorem init_success (hw : Hardware) (s : State) (h0 : (ble_status_led_init hw s).1 = 0) :
    ∃ d, hw.device_get_binding s.trace "gpio1" = some d ∧
      ble_status_led_init hw s =
        (0, { led_dev := some d,
              trace := s.trace ++ [Call.getBinding "gpio1", Call.isReady d,
                Call.configure d 10 hw.ledFlags, Call.pinSet d 10 1] }) := by
  rcases hb : hw.device_get_binding s.trace "gpio1" with _ | d
  · rw [init_no_binding hw s hb] at h0
    have hne : ((-1 : Int) = 0) → False := by decide
    exact absurd h0 hne
  · refine ⟨d, rfl, ?_⟩
    cases hr : hw.device_is_ready (s.trace ++ [Call.getBinding "gpio1"]) d
    · simp [ble_status_led_init, LED_PORT, hb, hr] at h0
    · by_cases hc : hw.gpio_pin_configure
          (s.trace ++ [Call.getBinding "gpio1", Call.isReady d]) d 10 hw.ledFlags = 0
      · by_cases hw1 : hw.gpio_pin_set (s.trace ++ [Call.getBinding "gpio1", Call.isReady d,
            Call.configure d 10 hw.ledFlags]) d 10 1 = 0
        · simp [ble_status_led_init, LED_PORT, LED_PIN, hb, hr, hc, hw1]
        · simp [ble_status_led_init, LED_PORT, LED_PIN, hb, hr, hc, hw1] at h0
      · simp [ble_status_led_init, LED_PORT, LED_PIN, hb, hr, hc] at h0

/-- C12 (counterexample). On a hardware layer that yields a handle at the first
acquisition and none afterwards, a first `ble_status_led_init` succeeds and
stores the handle, and a second one returns -1 and leaves `led_dev` NULL:
the driver is back in the uninitialised state. -/
theorem second_init_clears_handle :
    (ble_status_led_init lostAfterFirst State.initial).1 = 0 ∧
    (ble_status_led_init lostAfterFirst State.initial).2.led_dev = some dummy_dev ∧
    (ble_status_led_init lostAfterFirst
      (ble_status_led_init lostAfterFirst State.initial).2).1 = -1 ∧
    (ble_status_led_init lostAfterFirst
      (ble_status_led_init lostAfterFirst State.initial).2).2.led_dev = none ∧
    (runOps lostAfterFirst [Op.init, Op.init] State.initial).led_dev = none := by
  refine ⟨by decide, by decide, by decide, by decide, by decide⟩

/-- C12 (amended). For every hardware behaviour: an operation (init, set,
blink, module init) leaves `led_dev` NULL only if it was NULL before or the
operation is an init or module init whose acquisition of "gpio1" yields no
handle; such an init returns -1 and does leave `led_dev` NULL.  Hence on a
hardware layer whose acquisition always yields a handle, once a handle is
stored no sequence of operations makes it absent, whatever the results of the
later inits. -/
theorem handle_kept_unless_acquisition_fails (hw : Hardware) :
    (∀ (op : Op) (s : State), (op.run hw s).2.led_dev = none →
      s.led_dev = none ∨
      ((op = Op.init ∨ op = Op.moduleInit) ∧
        hw.device_get_binding s.trace "gpio1" = none)) ∧
    (∀ (s : State), hw.device_get_binding s.trace "gpio1" = none →
      (ble_status_led_init hw s).1 = -1 ∧ (ble_status_led_init hw s).2.led_dev = none ∧
      (ble_led_module_init hw s).1 = -1 ∧ (ble_led_module_init hw s).2.led_dev = none) ∧
    ((∀ hist, hw.device_get_binding hist "gpio1" ≠ none) →
      ∀ (ops : List Op) (s : State), s.led_dev ≠ none → (runOps hw ops s).led_dev ≠ none) := by
  have step : ∀ (op : Op) (s : State), (op.run hw s).2.led_dev = none →
      s.led_dev = none ∨
      ((op = Op.init ∨ op = Op.moduleInit) ∧
        hw.device_get_binding s.trace "gpio1" = none) := by
    intro op s h
    cases op with
    | init =>
      right
      exact ⟨Or.inl rfl, by rw [← init_led_dev hw s]; exact h⟩
    | set state =>
      left
      rw [← set_keeps_led_dev hw state s]; exact h
    | blink c dl =>
      left
      rw [← blink_keeps_led_dev hw c dl s]; exact h
    | moduleInit =>
      right
      exact ⟨Or.inr rfl, by rw [← module_init_led_dev hw s]; exact h⟩
  refine ⟨step, ?_, ?_⟩
  · intro s hb
    refine ⟨?_, ?_, ?_, ?_⟩
    · rw [init_no_binding hw s hb]
    · rw [init_led_dev, hb]
    · rw [module_init_result, init_no_binding hw s hb]
    · rw [module_init_led_dev, hb]
  · intro hall ops
    induction ops with
    | nil => intro s hs; exact hs
    | cons op ops ih =>
      intro s hs
      apply ih
      intro hnone
      rcases step op s hnone with h | ⟨_, h⟩
      · exact hs h
      · exact hall s.trace h

/-- Witness for C12 (amended): on the simulated platform, whose acquisition
always yields a handle, a sequence of all four operations keeps the handle. -/
theorem handle_kept_unless_acquisition_fails_witness :
    heldState.led_dev ≠ none ∧
    (runOps simulated [Op.init, Op.set 0, Op.blink 1 10, Op.moduleInit, Op.init]
      heldState).led_dev ≠ none :=
  ⟨by decide,
   (handle_kept_unless_acquisition_fails simulated).2.2
     (fun _ h => Option.noConfusion h)
     [Op.init, Op.set 0, Op.blink 1 10, Op.moduleInit, Op.init] heldState (by decide)⟩

/-! ## Repeated initialisation -/

/-- C13 (counterexample). On the simulated platform with the handle already
stored and ready, `ble_status_led_init` is not a no-op: it acquires the port
again, queries readiness, configures pin 10 and writes 1. -/
theorem reinit_touches_hardware :
    heldState.led_dev = some dummy_dev ∧
    simulated.device_is_ready heldState.trace dummy_dev = true ∧
    (ble_status_led_init simulated heldState).1 = 0 ∧
    callsSince heldState.trace (ble_status_led_init simulated heldState).2.trace =
      [Call.getBinding "gpio1", Call.isReady 1, Call.configure 1 10 1, Call.pinSet 1 10 1] ∧
    callsSince heldState.trace (ble_status_led_init simulated heldState).2.trace ≠ [] := by
  refine ⟨rfl, rfl, by decide, by decide, by decide⟩

/-- C13 (amended). For every hardware behaviour, `ble_status_led_init` called
with a handle `d` already stored and ready behaves exactly as a first call: its
result and its calls do not depend on the stored handle, it always acquires
"gpio1" again, and when it returns 0 it has made the four calls acquire,
readiness query, configure pin 10, write 1 and stores the newly acquired
handle.  It returns 0 again with the stored handle unchanged when the hardware
again yields `d`, reports ready and accepts the configure and the write. -/
theorem reinit_repeats_sequence (hw : Hardware) (s : State) (d : device)
    (hs : s.led_dev = some d) (_hr : hw.device_is_ready s.trace d = true) :
    ble_status_led_init hw s =
      ble_status_led_init hw { led_dev := none, trace := s.trace } ∧
    (callsSince s.trace (ble_status_led_init hw s).2.trace).head? =
      some (Call.getBinding "gpio1") ∧
    (ble_status_led_init hw s).2.led_dev = hw.device_get_binding s.trace "gpio1" ∧
    ((ble_status_led_init hw s).1 = 0 →
      ∃ d2, (ble_status_led_init hw s).2.led_dev = some d2 ∧
        callsSince s.trace (ble_status_led_init hw s).2.trace =
          [Call.getBinding "gpio1", Call.isReady d2, Call.configure d2 10 hw.ledFlags,
            Call.pinSet d2 10 1]) ∧
    (hw.device_get_binding s.trace "gpio1" = some d →
      hw.device_is_ready (s.trace ++ [Call.getBinding "gpio1"]) d = true →
      hw.gpio_pin_configure (s.trace ++ [Call.getBinding "gpio1", Call.isReady d])
        d 10 hw.ledFlags = 0 →
      hw.gpio_pin_set (s.trace ++ [Call.getBinding "gpio1", Call.isReady d,
        Call.configure d 10 hw.ledFlags]) d 10 1 = 0 →
      (ble_status_led_init hw s).1 = 0 ∧
      (ble_status_led_init hw s).2.led_dev = s.led_dev) := by
  refine ⟨rfl, ?_, init_led_dev hw s, ?_, ?_⟩
  · rcases hb : hw.device_get_binding s.trace "gpio1" with _ | d1
    · rw [init_no_binding hw s hb]
      simp [callsSince_append]
    · cases hr1 : hw.device_is_ready (s.trace ++ [Call.getBinding "gpio1"]) d1
      · simp [ble_status_led_init, LED_PORT, hb, hr1, callsSince]
      · by_cases hc : hw.gpio_pin_configure
            (s.trace ++ [Call.getBinding "gpio1", Call.isReady d1]) d1 10 hw.ledFlags = 0
        · by_cases hw1 : hw.gpio_pin_set (s.trace ++ [Call.getBinding "gpio1",
              Call.isReady d1, Call.configure d1 10 hw.ledFlags]) d1 10 1 = 0
          · simp [ble_status_led_init, LED_PORT, LED_PIN, hb, hr1, hc, hw1, callsSince]
          · simp [ble_status_led_init, LED_PORT, LED_PIN, hb, hr1, hc, hw1, callsSince]
        · simp [ble_status_led_init, LED_PORT, LED_PIN, hb, hr1, hc, callsSince]
  · intro h0
    obtain ⟨d2, _, hinit⟩ := init_success hw s h0
    refine ⟨d2, ?_, ?_⟩
    · rw [hinit]
    · rw [hinit]
      exact callsSince_append _ _
  · intro hb hr1 hc hw1
    constructor
    · simp [ble_status_led_init, LED_PORT, LED_PIN, hb, hr1, hc, hw1]
    · rw [init_led_dev, hb, hs]

/-- Witness for C13 (amended): the simulated platform with `dummy_dev` stored. -/
theorem reinit_repeats_sequence_witness :
    heldState.led_dev = some dummy_dev ∧
    simulated.device_is_ready heldState.trace dummy_dev = true ∧
    (ble_status_led_init simulated heldState).1 = 0 ∧
    (ble_status_led_init simulated heldState).2.led_dev = heldState.led_dev ∧
    (callsSince heldState.trace (ble_status_led_init simulated heldState).2.trace).head? =
      some (Call.getBinding "gpio1") :=
  ⟨rfl, rfl,
   ((reinit_repeats_sequence simulated heldState dummy_dev rfl rfl).2.2.2.2
     rfl rfl rfl rfl).1,
   ((reinit_repeats_sequence simulated heldState dummy_dev rfl rfl).2.2.2.2
     rfl rfl rfl rfl).2,
   (reinit_repeats_sequence simulated heldState dummy_dev rfl rfl).2.1⟩

/-! ## `ble_led_module_init` -/

/-- C14 (counterexample). On a hardware layer whose device reports ready at the
readiness query of `ble_status_led_init` and not-ready afterwards,
`ble_status_led_init` succeeds and `ble_led_module_init` returns 0, but the
self-test `blink_led(3, 100)` stops at its guard: the only hardware write is
the write of 1 made by the init, and there is no delay. -/
theorem module_init_blink_blocked_by_guard :
    (ble_status_led_init readyOnce State.initial).1 = 0 ∧
    (ble_led_module_init readyOnce State.initial).1 = 0 ∧
    (ble_led_module_init readyOnce State.initial).2.trace =
      [Call.getBinding "gpio1", Call.isReady 1, Call.configure 1 10 1, Call.pinSet 1 10 1,
        Call.isReady 1] ∧
    writes (ble_led_module_init readyOnce State.initial).2.trace = [Call.pinSet 1 10 1] ∧
    delays (ble_led_module_init readyOnce State.initial).2.trace = [] := by
  refine ⟨by decide, by decide, by decide, by decide, by decide⟩

/-- C14 (amended). For every hardware behaviour and prior state,
`ble_led_module_init` returns exactly the result of `ble_status_led_init`.
When init fails, the state is the one init left: no blink write, no delay.
When init succeeds and the handle still reports ready at the guard of
`blink_led(3, 100)`, the calls are acquire, readiness query, configure, write 1,
readiness query, then 3 x (write 0, delay 100, write 1, delay 100): one
configure and seven writes, the last of them 1.  When init succeeds and the
handle reports not-ready at that guard, only the readiness query is added.  On
the simulated platform `ble_led_module_init` returns 0 from every state, and so
does `main`. -/
theorem module_init_trace (hw : Hardware) (s : State) :
    (ble_led_module_init hw s).1 = (ble_status_led_init hw s).1 ∧
    ((ble_status_led_init hw s).1 ≠ 0 →
      (ble_led_module_init hw s).2 = (ble_status_led_init hw s).2) ∧
    (∀ d, (ble_status_led_init hw s).1 = 0 →
      (ble_status_led_init hw s).2.led_dev = some d →
      hw.device_is_ready (ble_status_led_init hw s).2.trace d = true →
      callsSince s.trace (ble_led_module_init hw s).2.trace =
        [Call.getBinding "gpio1", Call.isReady d, Call.configure d 10 hw.ledFlags,
         Call.pinSet d 10 1, Call.isReady d,
         Call.pinSet d 10 0, Call.msleep 100, Call.pinSet d 10 1, Call.msleep 100,
         Call.pinSet d 10 0, Call.msleep 100, Call.pinSet d 10 1, Call.msleep 100,
         Call.pinSet d 10 0, Call.msleep 100, Call.pinSet d 10 1, Call.msleep 100] ∧
      (callsSince s.trace (ble_led_module_init hw s).2.trace).filter Call.isConfigure =
        [Call.configure d 10 hw.ledFlags] ∧
      writes (callsSince s.trace (ble_led_module_init hw s).2.trace) =
        [Call.pinSet d 10 1, Call.pinSet d 10 0, Call.pinSet d 10 1, Call.pinSet d 10 0,
         Call.pinSet d 10 1, Call.pinSet d 10 0, Call.pinSet d 10 1] ∧
      delays (callsSince s.trace (ble_led_module_init hw s).2.trace) =
        List.replicate 6 (Call.msleep 100)) ∧
    (∀ d, (ble_status_led_init hw s).1 = 0 →
      (ble_status_led_init hw s).2.led_dev = some d →
      hw.device_is_ready (ble_status_led_init hw s).2.trace d = false →
      callsSince (ble_status_led_init hw s).2.trace (ble_led_module_init hw s).2.trace =
        [Call.isReady d]) ∧
    (∀ s0 : State, (ble_led_module_init simulated s0).1 = 0) ∧
    main.1 = 0 := by
  refine ⟨module_init_result hw s, ?_, ?_, ?_, ?_, ?_⟩
  · intro hne
    unfold ble_led_module_init
    simp only [if_neg hne]
  · intro d h0 hd hrdy
    have hmod : ble_led_module_init hw s =
        (0, (blink_led hw 3 100 (ble_status_led_init hw s).2).2) := by
      unfold ble_led_module_init
      simp [h0]
    obtain ⟨d2, _, hinit⟩ := init_success hw s h0
    rw [hinit] at hd hrdy
    have hdd : d2 = d := by simpa using hd
    subst hdd
    have hbl := blink_led_ready hw
      { led_dev := some d2,
        trace := s.trace ++ [Call.getBinding "gpio1", Call.isReady d2,
          Call.configure d2 10 hw.ledFlags, Call.pinSet d2 10 1] } d2 3 100 rfl hrdy
    have hcs : callsSince s.trace (ble_led_module_init hw s).2.trace =
        [Call.getBinding "gpio1", Call.isReady d2, Call.configure d2 10 hw.ledFlags,
         Call.pinSet d2 10 1, Call.isReady d2,
         Call.pinSet d2 10 0, Call.msleep 100, Call.pinSet d2 10 1, Call.msleep 100,
         Call.pinSet d2 10 0, Call.msleep 100, Call.pinSet d2 10 1, Call.msleep 100,
         Call.pinSet d2 10 0, Call.msleep 100, Call.pinSet d2 10 1, Call.msleep 100] := by
      rw [hmod, hinit, hbl]
      simp [callsSince, blinkPattern, blinkIteration]
    rw [hcs]
    exact ⟨rfl, rfl, rfl, rfl⟩
  · intro d h0 hd hrdy
    have hmod : ble_led_module_init hw s =
        (0, (blink_led hw 3 100 (ble_status_led_init hw s).2).2) := by
      unfold ble_led_module_init
      simp [h0]
    rw [hmod, blink_led_not_ready hw _ d 3 100 hd hrdy]
    exact callsSince_append _ _
  · intro s0
    rw [module_init_result]
    rfl
  · show (ble_led_module_init simulated State.initial).1 = 0
    rw [module_init_result]
    rfl

/-- Witness for C14 (amended): the simulated platform from the initial state;
the device is ready at both readiness queries. -/
theorem module_init_trace_witness :
    (ble_status_led_init simulated State.initial).1 = 0 ∧
    (ble_status_led_init simulated State.initial).2.led_dev = some dummy_dev ∧
    simulated.device_is_ready (ble_status_led_init simulated State.initial).2.trace
      dummy_dev = true ∧
    (ble_led_module_init simulated State.initial).1 = 0 ∧
    callsSince State.initial.trace (ble_led_module_init simulated State.initial).2.trace =
      [Call.getBinding "gpio1", Call.isReady 1, Call.configure 1 10 1,
       Call.pinSet 1 10 1, Call.isReady 1,
       Call.pinSet 1 10 0, Call.msleep 100, Call.pinSet 1 10 1, Call.msleep 100,
       Call.pinSet 1 10 0, Call.msleep 100, Call.pinSet 1 10 1, Call.msleep 100,
       Call.pinSet 1 10 0, Call.msleep 100, Call.pinSet 1 10 1, Call.msleep 100] ∧
    writes (callsSince State.initial.trace
      (ble_led_module_init simulated State.initial).2.trace) =
      [Call.pinSet 1 10 1, Call.pinSet 1 10 0, Call.pinSet 1 10 1, Call.pinSet 1 10 0,
       Call.pinSet 1 10 1, Call.pinSet 1 10 0, Call.pinSet 1 10 1] :=
  ⟨by decide, by decide, rfl,
   (module_init_trace simulated State.initial).2.2.2.2.1 State.initial,
   ((module_init_trace simulated State.initial).2.2.1 dummy_dev
     (by decide) (by decide) rfl).1,
   ((module_init_trace simulated State.initial).2.2.1 dummy_dev
     (by decide) (by decide) rfl).2.2.1⟩

/-! ## The listener and its event -/

/-- C15. The handler ignores its event: for any two events and any two
listener environments that have the same `bt_led_dev` and `ENODEV` and give the
same readiness answer and the same connectivity status at the same history
(they may differ in what `led_on` and `led_blink` return), the handler returns
the same result and makes the same calls.  For every environment, event and
history, the connectivity status is queried exactly once. -/
theorem listener_ignores_event (env1 env2 : ListenerEnv) (e1 e2 : zmk_event_t)
    (tr : List Call)
    (hd : env1.bt_led_dev = env2.bt_led_dev) (hE : env1.ENODEV = env2.ENODEV)
    (hr : env1.device_is_ready (tr ++ [Call.isConnected]) env1.bt_led_dev =
      env2.device_is_ready (tr ++ [Call.isConnected]) env2.bt_led_dev)
    (hc : env1.zmk_ble_active_profile_is_connected tr =
      env2.zmk_ble_active_profile_is_connected tr) :
    on_ble_connected_state_changed env1 e1 tr = on_ble_connected_state_changed env2 e2 tr ∧
    on_ble_connected_state_changed env1 e1 tr = on_ble_connected_state_changed env1 e2 tr ∧
    (callsSince tr (on_ble_connected_state_changed env1 e1 tr).2).count Call.isConnected
      = 1 := by
  refine ⟨?_, rfl, ?_⟩
  · unfold on_ble_connected_state_changed
    rw [hd] at hr
    simp only [hd, hE, hr, hc]
  · cases hr1 : env1.device_is_ready (tr ++ [Call.isConnected]) env1.bt_led_dev
    · simp [on_ble_connected_state_changed, hr1, callsSince]
    · cases hc1 : env1.zmk_ble_active_profile_is_connected tr <;>
        simp [on_ble_connected_state_changed, hr1, hc1, callsSince]

/-- Witness for C15: two ready, connected environments that differ in what
`led_on` and `led_blink` return, and two events of different kinds. -/
theorem listener_ignores_event_witness :
    (fixedEnv true true 0 0).bt_led_dev = (fixedEnv true true (-5) 3).bt_led_dev ∧
    (fixedEnv true true 0 0).ENODEV = (fixedEnv true true (-5) 3).ENODEV ∧
    on_ble_connected_state_changed (fixedEnv true true 0 0)
        (zmk_event_t.zmk_ble_connected_state_changed 0) [] =
      on_ble_connected_state_changed (fixedEnv true true (-5) 3)
        (zmk_event_t.zmk_ble_active_profile_changed 4) [] ∧
    (callsSince [] (on_ble_connected_state_changed (fixedEnv true true 0 0)
      (zmk_event_t.zmk_ble_connected_state_changed 0) []).2).count Call.isConnected = 1 :=
  ⟨rfl, rfl,
   (listener_ignores_event (fixedEnv true true 0 0) (fixedEnv true true (-5) 3)
     (zmk_event_t.zmk_ble_connected_state_changed 0)
     (zmk_event_t.zmk_ble_active_profile_changed 4) [] rfl rfl rfl rfl).1,
   (listener_ignores_event (fixedEnv true true 0 0) (fixedEnv true true (-5) 3)
     (zmk_event_t.zmk_ble_connected_state_changed 0)
     (zmk_event_t.zmk_ble_active_profile_changed 4) [] rfl rfl rfl rfl).2.2⟩

/-! ## The result of `ble_status_led_set` as an error code -/

/-- C16 (counterexample). With the handle stored and ready, on a hardware
layer whose write fails with code -1, `ble_status_led_set(1)` returns -1: the
same value it returns from the initial state, where no handle is stored. -/
theorem set_write_failure_collides :
    heldState.led_dev = some dummy_dev ∧
    (fixedHw (some 1) true 0 (-1)).device_is_ready heldState.trace dummy_dev = true ∧
    (fixedHw (some 1) true 0 (-1)).gpio_pin_set [Call.isReady 1] 1 10 1 = -1 ∧
    (ble_status_led_set (fixedHw (some 1) true 0 (-1)) 1 heldState).2.trace =
      [Call.isReady 1, Call.pinSet 1 10 1] ∧
    (ble_status_led_set (fixedHw (some 1) true 0 (-1)) 1 heldState).1 = -1 ∧
    State.initial.led_dev = none ∧
    (ble_status_led_set (fixedHw (some 1) true 0 (-1)) 1 State.initial).1 = -1 ∧
    (ble_status_led_set (fixedHw (some 1) true 0 (-1)) 1 heldState).1 =
      (ble_status_led_set (fixedHw (some 1) true 0 (-1)) 1 State.initial).1 := by
  refine ⟨rfl, rfl, rfl, by decide, by decide, rfl, by decide, by decide⟩

/-- C16 (amended). For every hardware behaviour, every state whose stored
handle is ready and every requested value, when the hardware write fails with
the non-zero code `c`, `ble_status_led_set` returns `c` itself; so its result
differs from -1, the value returned when the handle is absent or not ready,
exactly when `c` is not -1. -/
theorem set_result_is_write_code (hw : Hardware) (s : State) (d : device) (state : Int)
    (hs : s.led_dev = some d) (hr : hw.device_is_ready s.trace d = true)
    (_hf : hw.gpio_pin_set (s.trace ++ [Call.isReady d]) d 10 state ≠ 0) :
    (ble_status_led_set hw state s).1 =
      hw.gpio_pin_set (s.trace ++ [Call.isReady d]) d 10 state ∧
    ((ble_status_led_set hw state s).1 ≠ -1 ↔
      hw.gpio_pin_set (s.trace ++ [Call.isReady d]) d 10 state ≠ -1) ∧
    (∀ (s2 : State) (state2 : Int),
      (s2.led_dev = none ∨
        ∃ d2, s2.led_dev = some d2 ∧ hw.device_is_ready s2.trace d2 = false) →
      (ble_status_led_set hw state2 s2).1 = -1) := by
  rw [set_ready hw s d state hs hr]
  refine ⟨rfl, Iff.rfl, ?_⟩
  intro s2 state2 h
  rcases h with h | ⟨d2, h, hr2⟩
  · rw [set_no_handle hw s2 state2 h]
  · rw [set_not_ready hw s2 d2 state2 h hr2]

/-- Witness for C16 (amended): the write fails with -5 and
`ble_status_led_set(1)` returns -5, which is not -1. -/
theorem set_result_is_write_code_witness :
    heldState.led_dev = some dummy_dev ∧
    (fixedHw (some 1) true 0 (-5)).device_is_ready heldState.trace dummy_dev = true ∧
    (fixedHw (some 1) true 0 (-5)).gpio_pin_set (heldState.trace ++ [Call.isReady dummy_dev])
      dummy_dev 10 1 ≠ 0 ∧
    (ble_status_led_set (fixedHw (some 1) true 0 (-5)) 1 heldState).1 = -5 ∧
    (ble_status_led_set (fixedHw (some 1) true 0 (-5)) 1 heldState).1 ≠ -1 :=
  ⟨rfl, rfl, by decide,
   (set_result_is_write_code (fixedHw (some 1) true 0 (-5)) heldState dummy_dev 1 rfl rfl
     (by decide)).1,
   (set_result_is_write_code (fixedHw (some 1) true 0 (-5)) heldState dummy_dev 1 rfl rfl
     (by decide)).2.1.mpr (by decide)⟩

/-! ## Frame: which operations assign `led_dev` -/

/-- C17. For every hardware behaviour, every state and every argument,
`ble_status_led_set` and `blink_led` leave the stored handle exactly as it was,
whether the guard passes or fails and whatever the writes return.  The handle
is assigned only by `ble_status_led_init`, which stores the result of the
acquisition of "gpio1", and `ble_led_module_init` leaves the handle that its
call of `ble_status_led_init` stored. -/
theorem set_blink_preserve_handle (hw : Hardware) (s : State)
    (state blink_count delay_ms : Int) :
    (ble_status_led_set hw state s).2.led_dev = s.led_dev ∧
    (blink_led hw blink_count delay_ms s).2.led_dev = s.led_dev ∧
    (ble_status_led_init hw s).2.led_dev = hw.device_get_binding s.trace "gpio1" ∧
    (ble_led_module_init hw s).2.led_dev = (ble_status_led_init hw s).2.led_dev := by
  refine ⟨set_keeps_led_dev hw state s, blink_keeps_led_dev hw blink_count delay_ms s,
    init_led_dev hw s, ?_⟩
  rw [module_init_led_dev, init_led_dev]

end K30
